import Mathlib

set_option linter.unusedVariables false

/-!
Verification of the bolt-rs / bolt-sys interop layer.

This file shallowly embeds the object-header ("mask") bit helpers of
bolt-sys/src/sys.rs, the tagged-value model and accessors of
bolt-rs/src/types/value.rs and bolt-sys/src/bt_value, the thread
argument protocol of bolt-rs/src/types/thread.rs, the host-string
conversion boundary of bolt-rs/src/wrappers.rs, and the module registry
operations of bolt-rs/src/types/context.rs.

Machine integers are modelled as Nat with explicit bounds and explicit
reductions mod 2 ^ 64 where u64 overflow matters.  Rust functions that
can panic are modelled as Option-returning functions where a result of
none marks the panic.
-/

namespace object_mask

/-- From bolt-sys/src/sys.rs: bit 0 of the object mask is the GC mark bit. -/
def MARK_BIT : Nat := 0x1

/-- From bolt-sys/src/sys.rs: the intrusive next-pointer bits of the mask.
Note the constant is 0x00FF_FFFF_FFFF_FFFC, covering bits 2 through 55. -/
def PTR_BITS : Nat := 0x00FFFFFFFFFFFFFC

/-- From bolt-sys/src/sys.rs: shift of the 8-bit object-type tag. -/
def TYPE_SHIFT : Nat := 56

/-- From bolt-sys/src/sys.rs: width mask of the object-type tag. -/
def TYPE_MASK : Nat := 0xFF

/-- Rust bitwise complement on u64, expressed on Nat: xor with the all-ones
64-bit word. -/
def not64 (x : Nat) : Nat := 0xFFFFFFFFFFFFFFFF ^^^ x

/-- object_mask::get_type: ((mask >> TYPE_SHIFT) & TYPE_MASK) as u32.
The cast to u32 is value-preserving since the result is below 256. -/
def get_type (mask : Nat) : Nat := (mask >>> TYPE_SHIFT) &&& TYPE_MASK

/-- object_mask::get_next_ptr: mask & PTR_BITS. -/
def get_next_ptr (mask : Nat) : Nat := mask &&& PTR_BITS

/-- object_mask::is_marked: (mask & MARK_BIT) != 0. -/
def is_marked (mask : Nat) : Bool := (mask &&& MARK_BIT) != 0

/-- object_mask::set_mark: mask |= MARK_BIT (result of the in-place update). -/
def set_mark (mask : Nat) : Nat := mask ||| MARK_BIT

/-- object_mask::clear_mark: mask &= !MARK_BIT. -/
def clear_mark (mask : Nat) : Nat := mask &&& not64 MARK_BIT

/-- object_mask::set_type: mask = (mask & !(TYPE_MASK << TYPE_SHIFT)) |
((object_type as u64) << TYPE_SHIFT).  The u64 left shift wraps mod 2 ^ 64. -/
def set_type (mask : Nat) (object_type : Nat) : Nat :=
  (mask &&& not64 (TYPE_MASK <<< TYPE_SHIFT)) ||| ((object_type <<< TYPE_SHIFT) % 2 ^ 64)

/-- object_mask::set_next_ptr: mask = (mask & !PTR_BITS) | (ptr & PTR_BITS). -/
def set_next_ptr (mask : Nat) (ptr : Nat) : Nat :=
  (mask &&& not64 PTR_BITS) ||| (ptr &&& PTR_BITS)

end object_mask

/-- A spec-side reading of the next-pointer extractor, following the spec text
"bits 1 to 55": the mask with bit 0 and bits 56 through 63 cleared.
Kept distinct from object_mask.get_next_ptr to compare the two. -/
def get_next_ptr_spec (mask : Nat) : Nat := mask &&& 0x00FFFFFFFFFFFFFE

theorem tb_ptr_bits (i : Nat) :
    Nat.testBit object_mask.PTR_BITS i = (decide (2 ≤ i) && decide (i < 56)) := by
  rw [show object_mask.PTR_BITS = (2 ^ 54 - 1) <<< 2 from by decide]
  rw [Nat.testBit_shiftLeft, Nat.testBit_two_pow_sub_one]
  rcases Nat.lt_or_ge i 2 with h | h
  · simp [show ¬ 2 ≤ i from by omega]
  · simp [h, show (i - 2 < 54) ↔ (i < 56) from by omega]

theorem tb_byte (i : Nat) : Nat.testBit object_mask.TYPE_MASK i = decide (i < 8) := by
  rw [show object_mask.TYPE_MASK = 2 ^ 8 - 1 from by decide, Nat.testBit_two_pow_sub_one]

theorem tb_one (i : Nat) : Nat.testBit object_mask.MARK_BIT i = decide (0 = i) := by
  rw [show object_mask.MARK_BIT = 2 ^ 0 from by decide, Nat.testBit_two_pow]

theorem tb_not_type (i : Nat) :
    Nat.testBit (object_mask.not64 (object_mask.TYPE_MASK <<< object_mask.TYPE_SHIFT)) i
      = decide (i < 56) := by
  rw [show object_mask.not64 (object_mask.TYPE_MASK <<< object_mask.TYPE_SHIFT)
        = 2 ^ 56 - 1 from by decide]
  rw [Nat.testBit_two_pow_sub_one]

theorem tb_not_mark (i : Nat) :
    Nat.testBit (object_mask.not64 object_mask.MARK_BIT) i
      = (decide (1 ≤ i) && decide (i < 64)) := by
  rw [show object_mask.not64 object_mask.MARK_BIT = (2 ^ 63 - 1) <<< 1 from by decide]
  rw [Nat.testBit_shiftLeft, Nat.testBit_two_pow_sub_one]
  rcases Nat.lt_or_ge i 1 with h | h
  · simp [show ¬ 1 ≤ i from by omega]
  · simp [h, show (i - 1 < 63) ↔ (i < 64) from by omega]

theorem tb_not_ptr (i : Nat) :
    Nat.testBit (object_mask.not64 object_mask.PTR_BITS) i
      = (decide (i < 2) || (decide (56 ≤ i) && decide (i < 64))) := by
  rw [show object_mask.not64 object_mask.PTR_BITS
        = (2 ^ 2 - 1) ||| ((2 ^ 8 - 1) <<< 56) from by decide]
  rw [Nat.testBit_or, Nat.testBit_shiftLeft, Nat.testBit_two_pow_sub_one,
    Nat.testBit_two_pow_sub_one]
  rcases Nat.lt_or_ge i 56 with h | h
  · simp [show ¬ 56 ≤ i from by omega]
  · simp [h, show ¬ i < 2 from by omega, show (i - 56 < 8) ↔ (i < 64) from by omega]

theorem testBit_get_type (m i : Nat) :
    (object_mask.get_type m).testBit i = (m.testBit (56 + i) && decide (i < 8)) := by
  rw [object_mask.get_type, Nat.testBit_and, Nat.testBit_shiftRight, tb_byte]
  rfl

theorem testBit_get_next_ptr (m i : Nat) :
    (object_mask.get_next_ptr m).testBit i
      = (m.testBit i && (decide (2 ≤ i) && decide (i < 56))) := by
  rw [object_mask.get_next_ptr, Nat.testBit_and, tb_ptr_bits]

theorem testBit_set_mark (m i : Nat) :
    (object_mask.set_mark m).testBit i = (m.testBit i || decide (0 = i)) := by
  rw [object_mask.set_mark, Nat.testBit_or, tb_one]

theorem testBit_clear_mark (m i : Nat) :
    (object_mask.clear_mark m).testBit i
      = (m.testBit i && (decide (1 ≤ i) && decide (i < 64))) := by
  rw [object_mask.clear_mark, Nat.testBit_and, tb_not_mark]

theorem testBit_set_type (m t i : Nat) :
    (object_mask.set_type m t).testBit i
      = ((m.testBit i && decide (i < 56))
          || (decide (i < 64) && (decide (i ≥ 56) && t.testBit (i - 56)))) := by
  rw [object_mask.set_type, Nat.testBit_or, Nat.testBit_and, tb_not_type,
    Nat.testBit_mod_two_pow, Nat.testBit_shiftLeft]
  rfl

theorem testBit_set_next_ptr (m p i : Nat) :
    (object_mask.set_next_ptr m p).testBit i
      = ((m.testBit i && (decide (i < 2) || (decide (56 ≤ i) && decide (i < 64))))
          || (p.testBit i && (decide (2 ≤ i) && decide (i < 56)))) := by
  rw [object_mask.set_next_ptr, Nat.testBit_or, Nat.testBit_and, Nat.testBit_and,
    tb_not_ptr, tb_ptr_bits]

theorem testBit_ext_below {a b n : Nat} (ha : a < 2 ^ n) (hb : b < 2 ^ n)
    (h : ∀ i, i < n → a.testBit i = b.testBit i) : a = b := by
  apply Nat.eq_of_testBit_eq
  intro i
  rcases Nat.lt_or_ge i n with hi | hi
  · exact h i hi
  · rw [Nat.testBit_lt_two_pow (Nat.lt_of_lt_of_le ha (Nat.pow_le_pow_right (by omega) hi)),
      Nat.testBit_lt_two_pow (Nat.lt_of_lt_of_le hb (Nat.pow_le_pow_right (by omega) hi))]

theorem get_type_lt (m : Nat) : object_mask.get_type m < 2 ^ 8 :=
  Nat.and_lt_two_pow _ (by decide)

theorem get_next_ptr_lt (m : Nat) : object_mask.get_next_ptr m < 2 ^ 56 :=
  Nat.and_lt_two_pow _ (by decide)

theorem is_marked_eq_testBit (m : Nat) : object_mask.is_marked m = m.testBit 0 := by
  rw [object_mask.is_marked, show object_mask.MARK_BIT = 2 ^ 1 - 1 from by decide,
    Nat.and_pow_two_sub_one_eq_mod]
  rcases Nat.mod_two_eq_zero_or_one m with h | h <;> simp [h, Nat.testBit_zero]

theorem get_type_set_type (m t : Nat) (ht : t < 256) :
    object_mask.get_type (object_mask.set_type m t) = t := by
  apply testBit_ext_below (get_type_lt _) (show t < 2 ^ 8 from ht)
  intro i hi
  rw [testBit_get_type, testBit_set_type]
  interval_cases i <;> simp

theorem get_next_ptr_set_type (m t : Nat) :
    object_mask.get_next_ptr (object_mask.set_type m t)
      = object_mask.get_next_ptr m := by
  apply testBit_ext_below (get_next_ptr_lt _) (get_next_ptr_lt _)
  intro i hi
  rw [testBit_get_next_ptr, testBit_get_next_ptr, testBit_set_type]
  interval_cases i <;> simp

theorem is_marked_set_type (m t : Nat) :
    object_mask.is_marked (object_mask.set_type m t) = object_mask.is_marked m := by
  rw [is_marked_eq_testBit, is_marked_eq_testBit, testBit_set_type]
  simp

theorem is_marked_set_mark (m : Nat) : object_mask.is_marked (object_mask.set_mark m) = true := by
  rw [is_marked_eq_testBit, testBit_set_mark]
  simp

theorem get_type_set_mark (m : Nat) :
    object_mask.get_type (object_mask.set_mark m) = object_mask.get_type m := by
  apply testBit_ext_below (get_type_lt _) (get_type_lt _)
  intro i hi
  rw [testBit_get_type, testBit_get_type, testBit_set_mark]
  interval_cases i <;> simp

theorem get_next_ptr_set_mark (m : Nat) :
    object_mask.get_next_ptr (object_mask.set_mark m) = object_mask.get_next_ptr m := by
  apply testBit_ext_below (get_next_ptr_lt _) (get_next_ptr_lt _)
  intro i hi
  rw [testBit_get_next_ptr, testBit_get_next_ptr, testBit_set_mark]
  interval_cases i <;> simp

theorem is_marked_clear_mark (m : Nat) :
    object_mask.is_marked (object_mask.clear_mark m) = false := by
  rw [is_marked_eq_testBit, testBit_clear_mark]
  simp

theorem get_type_clear_mark (m : Nat) :
    object_mask.get_type (object_mask.clear_mark m) = object_mask.get_type m := by
  apply testBit_ext_below (get_type_lt _) (get_type_lt _)
  intro i hi
  rw [testBit_get_type, testBit_get_type, testBit_clear_mark]
  interval_cases i <;> simp

theorem get_next_ptr_clear_mark (m : Nat) :
    object_mask.get_next_ptr (object_mask.clear_mark m) = object_mask.get_next_ptr m := by
  apply testBit_ext_below (get_next_ptr_lt _) (get_next_ptr_lt _)
  intro i hi
  rw [testBit_get_next_ptr, testBit_get_next_ptr, testBit_clear_mark]
  interval_cases i <;> simp

theorem get_next_ptr_set_next_ptr (m p : Nat) :
    object_mask.get_next_ptr (object_mask.set_next_ptr m p)
      = object_mask.get_next_ptr p := by
  apply testBit_ext_below (get_next_ptr_lt _) (get_next_ptr_lt _)
  intro i hi
  rw [testBit_get_next_ptr, testBit_get_next_ptr, testBit_set_next_ptr]
  interval_cases i <;> simp

theorem get_type_set_next_ptr (m p : Nat) :
    object_mask.get_type (object_mask.set_next_ptr m p) = object_mask.get_type m := by
  apply testBit_ext_below (get_type_lt _) (get_type_lt _)
  intro i hi
  rw [testBit_get_type, testBit_get_type, testBit_set_next_ptr]
  interval_cases i <;> simp

theorem is_marked_set_next_ptr (m p : Nat) :
    object_mask.is_marked (object_mask.set_next_ptr m p) = object_mask.is_marked m := by
  rw [is_marked_eq_testBit, is_marked_eq_testBit, testBit_set_next_ptr]
  simp

/-- C1: header round-trip and per-field isolation.  For every 64-bit mask m,
every pointer word p and every valid 8-bit tag t: get_type reads back the tag
written by set_type while set_type leaves get_next_ptr and is_marked unchanged;
set_mark and clear_mark affect only is_marked; set_next_ptr affects only
get_next_ptr, whose extractor then returns the value written to its subfield. -/
theorem C1_header_field_isolation (m p t : Nat)
    (hm : m < 2 ^ 64) (hp : p < 2 ^ 64) (ht : t < 256) :
    object_mask.get_type (object_mask.set_type m t) = t
    ∧ object_mask.get_next_ptr (object_mask.set_type m t) = object_mask.get_next_ptr m
    ∧ object_mask.is_marked (object_mask.set_type m t) = object_mask.is_marked m
    ∧ object_mask.is_marked (object_mask.set_mark m) = true
    ∧ object_mask.get_type (object_mask.set_mark m) = object_mask.get_type m
    ∧ object_mask.get_next_ptr (object_mask.set_mark m) = object_mask.get_next_ptr m
    ∧ object_mask.is_marked (object_mask.clear_mark m) = false
    ∧ object_mask.get_type (object_mask.clear_mark m) = object_mask.get_type m
    ∧ object_mask.get_next_ptr (object_mask.clear_mark m) = object_mask.get_next_ptr m
    ∧ object_mask.get_next_ptr (object_mask.set_next_ptr m p)
        = object_mask.get_next_ptr p
    ∧ object_mask.get_type (object_mask.set_next_ptr m p) = object_mask.get_type m
    ∧ object_mask.is_marked (object_mask.set_next_ptr m p) = object_mask.is_marked m :=
  ⟨get_type_set_type m t ht, get_next_ptr_set_type m t, is_marked_set_type m t,
    is_marked_set_mark m, get_type_set_mark m, get_next_ptr_set_mark m,
    is_marked_clear_mark m, get_type_clear_mark m, get_next_ptr_clear_mark m,
    get_next_ptr_set_next_ptr m p, get_type_set_next_ptr m p, is_marked_set_next_ptr m p⟩

/-- Witness for C1 at the concrete mask 5, pointer 12 and tag 7. -/
theorem C1_header_field_isolation_witness :
    object_mask.get_type (object_mask.set_type 5 7) = 7 :=
  (C1_header_field_isolation 5 12 7 (by decide) (by decide) (by decide)).1

/-- C2 counterexample: at mask 2 (only bit 1 set) the implemented extractor
clears bit 1, while the spec text "bits 1 to 55" would keep it. -/
theorem C2_counterexample_bit_one :
    object_mask.get_next_ptr 2 ≠ get_next_ptr_spec 2 := by decide

/-- C2 (amended): get_next_ptr returns exactly the subfield occupying bits 2
through 55 of the mask (bits 0, 1 and 56 through 63 cleared), and set_next_ptr
writes exactly that bit range, leaving all other bits of the mask unchanged. -/
theorem C2_next_ptr_bit_range (m p : Nat) (hm : m < 2 ^ 64) :
    (∀ i, (object_mask.get_next_ptr m).testBit i
        = (m.testBit i && decide (2 ≤ i ∧ i ≤ 55)))
    ∧ (∀ i, (object_mask.set_next_ptr m p).testBit i
        = ((m.testBit i && !decide (2 ≤ i ∧ i ≤ 55))
            || (p.testBit i && decide (2 ≤ i ∧ i ≤ 55)))) := by
  constructor
  · intro i
    rw [testBit_get_next_ptr]
    rcases Nat.lt_or_ge i 64 with hi | hi
    · interval_cases i <;> simp
    · simp [show ¬ (2 ≤ i ∧ i ≤ 55) from by omega, show ¬ i < 56 from by omega]
  · intro i
    rw [testBit_set_next_ptr]
    rcases Nat.lt_or_ge i 64 with hi | hi
    · interval_cases i <;> simp
    · rw [Nat.testBit_lt_two_pow
        (Nat.lt_of_lt_of_le hm (Nat.pow_le_pow_right (by omega) hi))]
      simp [show ¬ (2 ≤ i ∧ i ≤ 55) from by omega, show ¬ i < 56 from by omega]

/-- Witness for C2 amended at mask 5, pointer 12, checked at bit 2. -/
theorem C2_next_ptr_bit_range_witness :
    (object_mask.get_next_ptr 5).testBit 2 = ((5 : Nat).testBit 2 && decide (2 ≤ 2 ∧ 2 ≤ 55)) :=
  (C2_next_ptr_bit_range 5 12 (by decide)).1 2

/-- Modelled from the spec: a heap object as seen through the value layer.
Only its 64-bit header word ("mask") is relevant to the claims; the payload
behind the header is opaque at this boundary. -/
structure BtObject where
  mask : Nat
deriving DecidableEq

/-- Modelled from the spec: the external VM's tagged value (bt_Value), a
fixed-size tagged union over null, bool, number, enum and object pointer, of
which exactly one tag holds for any well-formed value.  The f64 number payload
is carried as its raw 64-bit pattern; its arithmetic is never needed here.
An object-tagged value embeds a possibly null object pointer, modelled as an
Option. -/
inductive BtValue where
  | vnull : BtValue
  | vbool (b : Bool) : BtValue
  | vnumber (bits : Nat) : BtValue
  | venum (e : Nat) : BtValue
  | vobject (ptr : Option BtObject) : BtValue
deriving DecidableEq

/-- Modelled from the spec: bt_is_null, true exactly on the null tag. -/
def bt_is_null : BtValue → Bool
  | .vnull => true
  | _ => false

/-- Modelled from the spec: bt_is_bool. -/
def bt_is_bool : BtValue → Bool
  | .vbool _ => true
  | _ => false

/-- Modelled from the spec: bt_is_number. -/
def bt_is_number : BtValue → Bool
  | .vnumber _ => true
  | _ => false

/-- Modelled from the spec: bt_is_enum_val. -/
def bt_is_enum_val : BtValue → Bool
  | .venum _ => true
  | _ => false

/-- Modelled from the spec: bt_is_object. -/
def bt_is_object : BtValue → Bool
  | .vobject _ => true
  | _ => false

/-- Modelled from the spec: bt_object followed by the NonNull check of
Object::from_raw — the embedded object pointer, none when null or when the
value is not object-tagged. -/
def bt_object_ptr : BtValue → Option BtObject
  | .vobject o => o
  | _ => none

/-- Modelled from the spec: bt_get_number, the raw payload extractor; it is
only ever called under a bt_is_number guard, so its value elsewhere is
irrelevant (0 here). -/
def bt_get_number : BtValue → Nat
  | .vnumber x => x
  | _ => 0

/-- Modelled from the spec: bt_get_bool. -/
def bt_get_bool : BtValue → Bool
  | .vbool b => b
  | _ => false

/-- Modelled from the spec: bt_get_enum_val. -/
def bt_get_enum_val : BtValue → Nat
  | .venum e => e
  | _ => 0

/-- The ValueType enum of bolt-rs/src/types/value.rs.  Constructor names carry
a V prefix; the source's "Type" and "Annotation" variants are VType and VAnnot
here. -/
inductive ValueType where
  | VNull | VBool | VNumber | VEnum | VNone | VType | VString | VModule
  | VImport | VFunction | VNativeFunction | VClosure | VArray | VTable
  | VUserData | VAnnot
deriving DecidableEq

/-- Modelled from the spec: the bt_ObjectType tag for a non-object slot.  The
numeric tag values live in the generated bindings, outside src; they are
assigned here in the spec's listing order, and every result below depends only
on their being distinct. -/
def BT_OBJECT_TYPE_NONE : Nat := 0

/-- Modelled from the spec: bt_ObjectType tag of type objects. -/
def BT_OBJECT_TYPE_TYPE : Nat := 1

/-- Modelled from the spec: bt_ObjectType tag of string objects. -/
def BT_OBJECT_TYPE_STRING : Nat := 2

/-- Modelled from the spec: bt_ObjectType tag of module objects. -/
def BT_OBJECT_TYPE_MODULE : Nat := 3

/-- Modelled from the spec: bt_ObjectType tag of import objects. -/
def BT_OBJECT_TYPE_IMPORT : Nat := 4

/-- Modelled from the spec: bt_ObjectType tag of script functions. -/
def BT_OBJECT_TYPE_FN : Nat := 5

/-- Modelled from the spec: bt_ObjectType tag of native functions. -/
def BT_OBJECT_TYPE_NATIVE_FN : Nat := 6

/-- Modelled from the spec: bt_ObjectType tag of closures. -/
def BT_OBJECT_TYPE_CLOSURE : Nat := 7

/-- Modelled from the spec: bt_ObjectType tag of arrays. -/
def BT_OBJECT_TYPE_ARRAY : Nat := 8

/-- Modelled from the spec: bt_ObjectType tag of tables. -/
def BT_OBJECT_TYPE_TABLE : Nat := 9

/-- Modelled from the spec: bt_ObjectType tag of userdata objects. -/
def BT_OBJECT_TYPE_USERDATA : Nat := 10

/-- Modelled from the spec: bt_ObjectType tag of annotation objects (the
source constant name ends in ANNOTATION). -/
def BT_OBJECT_TYPE_ANNOT : Nat := 11

/-- Object::value_type of bolt-rs/src/types/object.rs: dispatch on
object_type() — the header's 8-bit tag — with the source's arm order, any
unknown tag falling through to ValueType::None. -/
def Object_value_type (mask : Nat) : ValueType :=
  let t := object_mask.get_type mask
  if t = BT_OBJECT_TYPE_TYPE then .VType
  else if t = BT_OBJECT_TYPE_STRING then .VString
  else if t = BT_OBJECT_TYPE_MODULE then .VModule
  else if t = BT_OBJECT_TYPE_IMPORT then .VImport
  else if t = BT_OBJECT_TYPE_USERDATA then .VUserData
  else if t = BT_OBJECT_TYPE_ANNOT then .VAnnot
  else if t = BT_OBJECT_TYPE_FN then .VFunction
  else if t = BT_OBJECT_TYPE_NATIVE_FN then .VNativeFunction
  else if t = BT_OBJECT_TYPE_CLOSURE then .VClosure
  else if t = BT_OBJECT_TYPE_ARRAY then .VArray
  else if t = BT_OBJECT_TYPE_TABLE then .VTable
  else .VNone

/-- Value::as_number of bolt-rs/src/types/value.rs: re-checks is_number before
extracting. -/
def Value_as_number (v : BtValue) : Option Nat :=
  if bt_is_number v then some (bt_get_number v) else none

/-- Value::as_bool: re-checks is_bool before extracting. -/
def Value_as_bool (v : BtValue) : Option Bool :=
  if bt_is_bool v then some (bt_get_bool v) else none

/-- Value::as_enum: re-checks is_enum before extracting. -/
def Value_as_enum (v : BtValue) : Option Nat :=
  if bt_is_enum_val v then some (bt_get_enum_val v) else none

/-- Value::as_object: re-checks is_object, then Object::from_raw performs the
null-pointer check. -/
def Value_as_object (v : BtValue) : Option BtObject :=
  if bt_is_object v then bt_object_ptr v else none

/-- ValueType::from_value of bolt-rs/src/types/value.rs: the ordered,
short-circuiting classification null, bool, number, enum, object (refined by
header tag), none. -/
def ValueType_from_value (v : BtValue) : ValueType :=
  if bt_is_null v then .VNull
  else if bt_is_bool v then .VBool
  else if bt_is_number v then .VNumber
  else if bt_is_enum_val v then .VEnum
  else match Value_as_object v with
    | some obj => Object_value_type obj.mask
    | none => .VNone

/-- The ValueType enum of bolt-sys/src/bt_value/mod.rs.  Its Enum, Function,
NativeFunction, Closure, Array and Table variants carry payloads in the
source; from_value's panicking arms never construct them, and no other code
here does, so the payloads are elided. -/
inductive SysValueType where
  | SNull | SBool | SNumber | SEnum | SNone | SType | SString | SModule
  | SImport | SFunction | SNativeFunction | SClosure | SArray | STable
  | SUserData | SAnnot
deriving DecidableEq

/-- ValueType::from_value of bolt-sys/src/bt_value/mod.rs.  A result of none
models a panic: the enum arm is ValueType::Enum(todo!()) and the non-null
object arm ends in return todo!(), both explicit not-yet-implemented
placeholders. -/
def sys_ValueType_from_value (v : BtValue) : Option SysValueType :=
  if bt_is_null v then some .SNull
  else if bt_is_bool v then some .SBool
  else if bt_is_number v then some .SNumber
  else if bt_is_enum_val v then none
  else match bt_object_ptr v with
    | some _ => if bt_is_object v then none else some .SNone
    | none => some .SNone

/-- The ArgError enum of bolt-rs/src/error.rs: conversion failures surfaced to
native functions. -/
inductive ArgError where
  | TypeGuard (expected : ValueType) (actual : ValueType) : ArgError
  | TypeGuardEnum (actual : ValueType) : ArgError
  | IndexOutOfBounds (idx : Nat) (len : Nat) : ArgError
deriving DecidableEq

/-- True exactly on the IndexOutOfBounds variant of ArgError. -/
def ArgError.isOOB : ArgError → Bool
  | .IndexOutOfBounds _ _ => true
  | _ => false

/-- A Thread's argument state: the incoming arguments of the current call.
Modelled from the spec, which has a Thread hold its arguments and an argument
count; bt_argc reports that count. -/
structure BoltThread where
  args : List BtValue
deriving DecidableEq

/-- Modelled from the spec: bt_argc, the number of available arguments (a u8
in the bindings, so below 256 wherever it arises). -/
def bt_argc (t : BoltThread) : Nat := t.args.length

/-- Modelled from the spec: bt_arg, the raw argument fetch; only ever invoked
in bounds by the checked path, so the out-of-range default is irrelevant. -/
def bt_arg (t : BoltThread) (idx : Nat) : BtValue := t.args.getD idx BtValue.vnull

/-- Thread::get_arg of bolt-rs/src/types/thread.rs (same body as
BoltThread::get_arg of bolt-sys/src/context.rs): reads len = bt_argc, fails
with IndexOutOfBounds when len <= idx, otherwise fetches the argument and
applies the FromBoltValue conversion conv (the T::from of the instantiation). -/
def Thread_get_arg {α : Type} (conv : BtValue → Except ArgError α)
    (t : BoltThread) (idx : Nat) : Except ArgError α :=
  let len := bt_argc t
  if len ≤ idx then .error (.IndexOutOfBounds idx len)
  else conv (bt_arg t idx)

/-- Thread::get_arg again, instrumented with the list of argument indices
fetched from the VM (the bt_arg calls made), in order. -/
def Thread_get_arg_instr {α : Type} (conv : BtValue → Except ArgError α)
    (t : BoltThread) (idx : Nat) : Except ArgError α × List Nat :=
  let len := bt_argc t
  if len ≤ idx then (.error (.IndexOutOfBounds idx len), [])
  else (conv (bt_arg t idx), [idx])

/-- The FromBoltValue impl for f64 of bolt-rs/src/types/value.rs: checked
extraction of a number, with a TypeGuard error carrying the expected and
actual discriminants on mismatch. -/
def f64_from (v : BtValue) : Except ArgError Nat :=
  if bt_is_number v then .ok (bt_get_number v)
  else .error (.TypeGuard ValueType.VNumber (ValueType_from_value v))

/-- The Error enum of bolt-rs/src/error.rs. -/
inductive Error where
  | StringConversion : Error
  | BoltError (msg : String) : Error
deriving DecidableEq

/-- The ModuleError enum of bolt-rs/src/error.rs; name payloads are byte
strings. -/
inductive ModuleError where
  | InvalidName (name : List Nat) : ModuleError
  | AlreadyRegistered (name : List Nat) : ModuleError
  | NotFound (name : List Nat) : ModuleError
deriving DecidableEq

/-- CString::new on a host string given as its byte list: fails exactly when
the bytes contain an interior nul. -/
def cstring_new (s : List Nat) : Option (List Nat) :=
  if s.contains 0 then none else some s

/-- The IntoCStr impl for &str of bolt-rs/src/wrappers.rs, composed with the
question-mark conversion NulError to Error::StringConversion used at every
call site. -/
def str_as_c_str (s : List Nat) : Except Error (List Nat) :=
  match cstring_new s with
  | some c => .ok c
  | none => .error .StringConversion

/-- Context::run of bolt-rs/src/types/context.rs: converts the code string
(propagating the conversion error before anything else), then calls bt_run —
abstracted as the predicate vm — and maps a false result to a BoltError.  vm
being a parameter of the embedding shows no VM call happens on the error
path. -/
def Context_run (vm : List Nat → Bool) (code : List Nat) : Except Error Unit :=
  match str_as_c_str code with
  | .error e => .error e
  | .ok c => if vm c then .ok () else .error (.BoltError ("Execution failed"))

/-- Context::compile_module of bolt-rs/src/types/context.rs: converts source
and module name in that order, then calls bt_compile_module — abstracted as
vmc, none standing for a null module pointer. -/
def Context_compile_module (vmc : List Nat → List Nat → Option Nat)
    (source mod_name : List Nat) : Except Error Nat :=
  match str_as_c_str source with
  | .error e => .error e
  | .ok s =>
    match str_as_c_str mod_name with
    | .error e => .error e
    | .ok n =>
      match vmc s n with
      | some m => .ok m
      | none => .error (.BoltError ("Module failed to compile"))

/-- The MakeBoltValueWithContext impl for &str of bolt-rs/src/types/value.rs
(and its duplicate in bolt-sys/src/bt_value/bt_object.rs): the C string handed
to bt_make_string.  The source runs
CString::new(s).unwrap_or_else(|_| CString::new("").unwrap()), so an interior
nul silently yields the empty string instead of an error. -/
def str_make_with_context (s : List Nat) : List Nat :=
  (cstring_new s).getD []

/-- Modelled from the spec: the Context state relevant to the module claims —
the module table (a name-keyed registry, most recent registration first) and a
counter supplying the identity of the next created module. -/
structure Ctx where
  modules : List (List Nat × Nat)
  next_module : Nat
deriving DecidableEq

/-- Modelled from the spec: bt_make_module allocates a fresh module owned by
the context; the returned Nat is the module's identity. -/
def bt_make_module (c : Ctx) : Ctx × Nat :=
  ({ c with next_module := c.next_module + 1 }, c.next_module)

/-- Modelled from the spec: bt_register_module enters the module into the
context's module table under the given (interned) name. -/
def bt_register_module (c : Ctx) (name : List Nat) (m : Nat) : Ctx :=
  { c with modules := (name, m) :: c.modules }

/-- Modelled from the spec: bt_find_module resolves a name in the module
table; a null result models the not-found case. -/
def bt_find_module (c : Ctx) (name : List Nat) : Option Nat :=
  (c.modules.lookup name)

/-- Context::create_module of bolt-rs/src/types/context.rs: make_module, then
intern the name via make_with_context, then register_module; always returns
Ok with the created module. -/
def Context_create_module (c : Ctx) (name : List Nat) :
    Ctx × Except ModuleError Nat :=
  let p := bt_make_module c
  let name_value := str_make_with_context name
  (bt_register_module p.1 name_value p.2, .ok p.2)

/-- Context::get_module of bolt-rs/src/types/context.rs: intern the name via
make_with_context, find_module, and map a null result to
ModuleError::NotFound. -/
def Context_get_module (c : Ctx) (name : List Nat) : Except ModuleError Nat :=
  let name_value := str_make_with_context name
  match bt_find_module c name_value with
  | some m => .ok m
  | none => .error (.NotFound name)

/-- Context::make_primitive_type of bolt-rs/src/types/context.rs.  The
monomorphization-time guard const { assert!(size_of::<F>() == 0) } is
modelled as the outer Option: none is a compile-time rejection, reached
exactly when the callback type F has nonzero size.  size_of_F stands for
std::mem::size_of::<F>().  An accepted instantiation then converts the name
(question-mark on IntoCStr) and registers through bt_make_primitive_type,
whose handle is abstracted to Unit. -/
def Context_make_primitive_type (size_of_F : Nat) (name : List Nat) :
    Option (Except Error Unit) :=
  if size_of_F = 0 then
    some
      (match str_as_c_str name with
      | .error e => .error e
      | .ok _ => .ok ())
  else none

/-- C3: on a Thread with argc = n, get_arg fails with an index-out-of-bounds
error for every idx >= n; for every idx < n it fetches the argument and
returns exactly the checked conversion's result, and (for the f64 conversion
of the source) any failure there is a type mismatch, never out-of-bounds. -/
theorem C3_get_arg_bounds {α : Type} (conv : BtValue → Except ArgError α)
    (t : BoltThread) (idx : Nat) (hidx : idx < 256) (hlen : bt_argc t < 256) :
    (bt_argc t ≤ idx →
      Thread_get_arg conv t idx = .error (.IndexOutOfBounds idx (bt_argc t)))
    ∧ (idx < bt_argc t → Thread_get_arg conv t idx = conv (bt_arg t idx))
    ∧ (idx < bt_argc t →
        ∀ e, Thread_get_arg f64_from t idx = .error e → e.isOOB = false) := by
  refine ⟨fun h => ?_, fun h => ?_, fun h e he => ?_⟩
  · simp [Thread_get_arg, h]
  · simp [Thread_get_arg, show ¬ bt_argc t ≤ idx from by omega]
  · have hlt : ¬ bt_argc t ≤ idx := by omega
    by_cases hn : bt_is_number (bt_arg t idx)
    · simp [Thread_get_arg, hlt, f64_from, hn] at he
    · simp [Thread_get_arg, hlt, f64_from, hn] at he
      simp [← he, ArgError.isOOB]

/-- Witness for C3: on a one-argument thread, index 0 goes to the converter. -/
theorem C3_get_arg_bounds_witness :
    Thread_get_arg f64_from (BoltThread.mk [BtValue.vnumber 3]) 0
      = f64_from (bt_arg (BoltThread.mk [BtValue.vnumber 3]) 0) :=
  (C3_get_arg_bounds f64_from (BoltThread.mk [BtValue.vnumber 3]) 0 (by decide)
    (by decide)).2.1 (by decide)

/-- C9: on the out-of-bounds path get_arg returns IndexOutOfBounds carrying
the requested index and the current argument count while making no bt_arg
fetch into the VM (the fetch trace is empty); and since indices and counts are
8-bit, index 255 can never be in bounds, so at most 255 arguments are
addressable. -/
theorem C9_get_arg_error_atomicity {α : Type} (conv : BtValue → Except ArgError α)
    (t : BoltThread) (idx : Nat) (hidx : idx < 256) (hlen : bt_argc t ≤ 255) :
    (bt_argc t ≤ idx →
      Thread_get_arg_instr conv t idx
        = (.error (.IndexOutOfBounds idx (bt_argc t)), []))
    ∧ (Thread_get_arg_instr conv t 255).1
        = .error (.IndexOutOfBounds 255 (bt_argc t)) := by
  constructor
  · intro h
    simp [Thread_get_arg_instr, h]
  · simp [Thread_get_arg_instr, show bt_argc t ≤ 255 from hlen]

/-- Witness for C9: an empty-argument thread, index 0, empty fetch trace. -/
theorem C9_get_arg_error_atomicity_witness :
    Thread_get_arg_instr f64_from (BoltThread.mk []) 0
      = (.error (.IndexOutOfBounds 0 (bt_argc (BoltThread.mk []))), []) :=
  (C9_get_arg_error_atomicity f64_from (BoltThread.mk []) 0 (by decide)
    (by decide)).1 (by decide)

/-- C4 counterexample: the bolt-sys ValueType::from_value hits the
ValueType::Enum(todo!()) arm on an enum-tagged value and panics (none marks
the panic), so from_value as a whole is not panic-free as the claim states. -/
theorem C4_counterexample_sys_enum_panics :
    sys_ValueType_from_value (BtValue.venum 0) = none := by decide

/-- C4 (amended): the bolt-rs ValueType::from_value is total and its ordered
null, bool, number, enum, object(header-tag), none probing collapses to the
direct classification by tag; the bolt-sys duplicate instead panics (todo!)
on every enum-tagged value and every non-null-object value. -/
theorem C4_from_value_total_ordered :
    (∀ v : BtValue, ValueType_from_value v =
      match v with
      | .vnull => .VNull
      | .vbool _ => .VBool
      | .vnumber _ => .VNumber
      | .venum _ => .VEnum
      | .vobject (some o) => Object_value_type o.mask
      | .vobject none => .VNone)
    ∧ (∀ e, sys_ValueType_from_value (BtValue.venum e) = none)
    ∧ (∀ o, sys_ValueType_from_value (BtValue.vobject (some o)) = none) := by
  refine ⟨fun v => ?_, fun e => rfl, fun o => rfl⟩
  rcases v with _ | b | n | e | o
  · rfl
  · rfl
  · rfl
  · rfl
  · rcases o with _ | o <;> rfl

/-- C6: each extraction accessor answers Some exactly when its own
discriminating predicate holds — as_object additionally requiring the
embedded object pointer to be non-null — and None otherwise, re-checking
rather than trusting the caller. -/
theorem C6_accessors_recheck (v : BtValue) :
    ((Value_as_number v).isSome = bt_is_number v)
    ∧ ((Value_as_bool v).isSome = bt_is_bool v)
    ∧ ((Value_as_enum v).isSome = bt_is_enum_val v)
    ∧ ((Value_as_object v).isSome
        = (bt_is_object v && (bt_object_ptr v).isSome)) := by
  rcases v with _ | b | n | e | o
  · exact ⟨rfl, rfl, rfl, rfl⟩
  · exact ⟨rfl, rfl, rfl, rfl⟩
  · exact ⟨rfl, rfl, rfl, rfl⟩
  · exact ⟨rfl, rfl, rfl, rfl⟩
  · rcases o with _ | o <;> exact ⟨rfl, rfl, rfl, rfl⟩

/-- C10: Object::value_type degrades every header tag outside the 11 known
object kinds to the None value type instead of panicking. -/
theorem C10_unknown_tag_is_none (mask : Nat)
    (h : object_mask.get_type mask ∉
      [BT_OBJECT_TYPE_TYPE, BT_OBJECT_TYPE_STRING, BT_OBJECT_TYPE_MODULE,
        BT_OBJECT_TYPE_IMPORT, BT_OBJECT_TYPE_USERDATA, BT_OBJECT_TYPE_ANNOT,
        BT_OBJECT_TYPE_FN, BT_OBJECT_TYPE_NATIVE_FN, BT_OBJECT_TYPE_CLOSURE,
        BT_OBJECT_TYPE_ARRAY, BT_OBJECT_TYPE_TABLE]) :
    Object_value_type mask = ValueType.VNone := by
  simp only [List.mem_cons, List.not_mem_nil, or_false, not_or] at h
  obtain ⟨h1, h2, h3, h4, h5, h6, h7, h8, h9, h10, h11⟩ := h
  simp [Object_value_type, h1, h2, h3, h4, h5, h6, h7, h8, h9, h10, h11]

/-- Witness for C10 at mask 0, whose tag 0 is the None object tag, outside
the 11 known kinds. -/
theorem C10_unknown_tag_is_none_witness :
    Object_value_type 0 = ValueType.VNone :=
  C10_unknown_tag_is_none 0 (by decide)

/-- C5 counterexample: a host string with an interior nul handed to string
Value construction (make_with_context for &str) is not reported as an error;
the construction silently proceeds with the empty C string instead. -/
theorem C5_counterexample_nul_string :
    cstring_new [104, 0, 105] = none
    ∧ str_make_with_context [104, 0, 105] = []
    ∧ str_make_with_context [104, 0, 105] ≠ [104, 0, 105] := by decide

/-- C5 (amended): IntoCStr consumers (run, compile_module) report the
recoverable StringConversion error for a string with an interior nul before
any VM call (the VM is a parameter the error path never consults); but string
Value construction via make_with_context silently substitutes the empty
string and proceeds to allocate. -/
theorem C5_nul_byte_reporting (s : List Nat) (h : s.contains 0 = true) :
    (∀ vm, Context_run vm s = .error Error.StringConversion)
    ∧ (∀ vmc other, Context_compile_module vmc s other
        = .error Error.StringConversion)
    ∧ str_make_with_context s = [] := by
  have hc : cstring_new s = none := by rw [cstring_new, if_pos h]
  refine ⟨fun vm => ?_, fun vmc other => ?_, ?_⟩
  · simp [Context_run, str_as_c_str, hc]
  · simp [Context_compile_module, str_as_c_str, hc]
  · simp [str_make_with_context, hc]

/-- Witness for C5 amended on the two-byte string 104, 0. -/
theorem C5_nul_byte_reporting_witness :
    str_make_with_context [104, 0] = [] :=
  (C5_nul_byte_reporting [104, 0] (by decide)).2.2

/-- C7: registering a freshly created module under a name and looking that
name up returns exactly the registered module handle; looking up a name with
no registration yields the typed ModuleError::NotFound, never a fatal
failure. -/
theorem C7_module_lifecycle (c : Ctx) (name other : List Nat)
    (h : bt_find_module c (str_make_with_context other) = none) :
    Context_get_module (Context_create_module c name).1 name
      = (Context_create_module c name).2
    ∧ (Context_create_module c name).2 = .ok (bt_make_module c).2
    ∧ Context_get_module c other = .error (ModuleError.NotFound other) := by
  refine ⟨?_, rfl, ?_⟩
  · simp [Context_get_module, Context_create_module, bt_find_module,
      bt_register_module, bt_make_module, List.lookup]
  · simp [Context_get_module, h]

/-- Witness for C7 on an empty context, registering name 97 and missing
name 98. -/
theorem C7_module_lifecycle_witness :
    Context_get_module (Context_create_module (Ctx.mk [] 0) [97]).1 [97]
      = (Context_create_module (Ctx.mk [] 0) [97]).2 :=
  (C7_module_lifecycle (Ctx.mk [] 0) [97] [98] (by decide)).1

/-- C8: make_primitive_type's construction is accepted exactly for zero-sized
(capture-free) callback types; any instantiation whose callback type has
nonzero size — any closure capturing state — is rejected at compile time
(the none branch of the modelled monomorphization-time assert). -/
theorem C8_primitive_type_requires_zero_size (size_of_F : Nat) (name : List Nat) :
    (Context_make_primitive_type size_of_F name).isSome ↔ size_of_F = 0 := by
  by_cases h : size_of_F = 0 <;> simp [Context_make_primitive_type, h]
